import Mathlib

/-!
Shallow embedding of the telegram-parser-system data-collector core
(data-collector/src/database/writer.py, queue/message_queue.py,
queue/batch_processor.py, api/routes.py) together with proofs checking
the natural-language specification against it.

Conventions of the embedding:
* Timestamps are natural numbers (seconds); NOW() is passed in as an
  explicit `now` argument.
* SQL tables are Lean lists of records; an UPDATE ... WHERE is a `List.map`
  with an `if` on the WHERE condition, a DELETE is a `List.filter`.
* Status columns keep their source string values ("pending", "running",
  "completed", "failed", "active").
* JSON-encoded columns keep their structured value (the json.dumps step is
  a bijective serialization and is dropped).
-/

namespace TelegramParserSystem

/-! ### Messages: api/models.py `Message` and the `messages` table row -/

/-- Incoming message payload, mirroring `Message` in api/models.py
(the defaults there are the ones `DatabaseWriter.insert_messages` reads
via `msg.get`). -/
structure Msg where
  message_id : Int
  text : Option String
  date : Nat
  views : Nat
  forwards : Nat
  replies : Nat
  reactions : Option (List (String × Nat))
  edit_date : Option Nat
  media_type : Option String
  media_url : Option String
  media_metadata : Option String
  author_id : Option Int
  author_name : Option String
  is_forwarded : Bool
  forward_from : Option String
  reply_to_msg_id : Option Int
  raw_data : Option String
deriving DecidableEq, Repr

/-- A row of the `messages` table, with the columns named in the INSERT of
`DatabaseWriter.insert_messages`. -/
structure MessageRow where
  channel_id : Int
  message_id : Int
  text : Option String
  date : Nat
  views : Nat
  forwards : Nat
  replies : Nat
  reactions : Option (List (String × Nat))
  edit_date : Option Nat
  media_type : Option String
  media_url : Option String
  media_metadata : Option String
  author_id : Option Int
  author_name : Option String
  is_forwarded : Bool
  forward_from : Option String
  reply_to_msg_id : Option Int
  raw_data : Option String
deriving DecidableEq, Repr

/-- The record tuple built for one message in `insert_messages`. -/
def toRecord (channel_id : Int) (m : Msg) : MessageRow :=
  { channel_id := channel_id
    message_id := m.message_id
    text := m.text
    date := m.date
    views := m.views
    forwards := m.forwards
    replies := m.replies
    reactions := m.reactions
    edit_date := m.edit_date
    media_type := m.media_type
    media_url := m.media_url
    media_metadata := m.media_metadata
    author_id := m.author_id
    author_name := m.author_name
    is_forwarded := m.is_forwarded
    forward_from := m.forward_from
    reply_to_msg_id := m.reply_to_msg_id
    raw_data := m.raw_data }

/-- The `ON CONFLICT (channel_id, message_id)` key test. -/
def keyMatches (cid mid : Int) (row : MessageRow) : Bool :=
  row.channel_id == cid && row.message_id == mid

/-- The `DO UPDATE SET` clause of `insert_messages`: only views, forwards,
replies, reactions and edit_date are taken from the EXCLUDED (incoming) row. -/
def applyConflictUpdate (incoming row : MessageRow) : MessageRow :=
  { row with
    views := incoming.views
    forwards := incoming.forwards
    replies := incoming.replies
    reactions := incoming.reactions
    edit_date := incoming.edit_date }

/-- One execution of the INSERT ... ON CONFLICT DO UPDATE statement. -/
def upsertMessage (table : List MessageRow) (r : MessageRow) : List MessageRow :=
  if table.any (keyMatches r.channel_id r.message_id) then
    table.map fun row =>
      if keyMatches r.channel_id r.message_id row then applyConflictUpdate r row else row
  else
    table ++ [r]

/-- `DatabaseWriter.insert_messages`: executemany of the upsert over the
prepared records (the channel-statistics UPDATE touches the `channels`
table only and is not part of the `messages` state modelled here). -/
def insert_messages (table : List MessageRow) (channel_id : Int) (msgs : List Msg) :
    List MessageRow :=
  (msgs.map (toRecord channel_id)).foldl upsertMessage table

/-! ### Job ledger: the `jobs`, `workers` and `channels` tables -/

/-- A row of the `jobs` table (columns read or written by writer.py). -/
structure JobRecord where
  job_uuid : String
  channel_id : Int
  job_type : String
  priority : Int
  created_at : Nat
  status : String
  worker_id : Option String
  started_at : Option Nat
  completed_at : Option Nat
  messages_collected : Option Int
  progress_percent : Nat
  error_message : Option String
  retry_count : Nat
deriving DecidableEq, Repr

/-- A row of the `workers` table (the counters touched by writer.py). -/
structure WorkerRecord where
  worker_id : String
  status : String
  jobs_completed : Nat
  jobs_failed : Nat
  messages_processed : Int
deriving DecidableEq, Repr

/-- A row of the `channels` table (columns used by `get_worker_jobs`). -/
structure ChannelRecord where
  id : Int
  username : String
  status : String
deriving DecidableEq, Repr

/-- The relational state touched by DatabaseWriter. -/
structure DBState where
  jobs : List JobRecord
  workers : List WorkerRecord
  channels : List ChannelRecord
deriving DecidableEq, Repr

/-- Python `messages_collected or 0` (None and 0 both give 0). -/
def pyOrZero : Option Int → Int
  | some n => n
  | none => 0

/-- `DatabaseWriter.update_job_status`. Each branch is the UPDATE statement
the source runs for that status string; every WHERE clause is only
`job_uuid = $1`, with no condition on the current status or worker. The
worker-counter statements are separate UPDATEs run only when the
`worker_id` argument is present. -/
def update_job_status (db : DBState) (now : Nat) (job_id : String) (status : String)
    (worker_id : Option String) (messages_collected : Option Int)
    (error_message : Option String) : DBState :=
  if status == "running" then
    { db with
      jobs := db.jobs.map fun j =>
        if j.job_uuid == job_id then
          { j with status := status, worker_id := worker_id, started_at := some now }
        else j }
  else if status == "completed" then
    let db1 : DBState :=
      { db with
        jobs := db.jobs.map fun j =>
          if j.job_uuid == job_id then
            { j with status := status, completed_at := some now,
                     messages_collected := messages_collected, progress_percent := 100 }
          else j }
    match worker_id with
    | some w =>
        { db1 with
          workers := db1.workers.map fun wk =>
            if wk.worker_id == w then
              { wk with jobs_completed := wk.jobs_completed + 1,
                        messages_processed :=
                          wk.messages_processed + pyOrZero messages_collected }
            else wk }
    | none => db1
  else if status == "failed" then
    let db1 : DBState :=
      { db with
        jobs := db.jobs.map fun j =>
          if j.job_uuid == job_id then
            { j with status := status, completed_at := some now,
                     error_message := error_message, retry_count := j.retry_count + 1 }
          else j }
    match worker_id with
    | some w =>
        { db1 with
          workers := db1.workers.map fun wk =>
            if wk.worker_id == w then { wk with jobs_failed := wk.jobs_failed + 1 } else wk }
    | none => db1
  else db

/-- `DatabaseWriter.cleanup_old_jobs`: DELETE FROM jobs WHERE status IN
(completed, failed) AND completed_at before the retention cutoff
(a NULL completed_at never satisfies the comparison). -/
def cleanup_old_jobs (db : DBState) (now : Nat) (days : Nat) : DBState :=
  { db with
    jobs := db.jobs.filter fun j =>
      !((j.status == "completed" || j.status == "failed") &&
        (match j.completed_at with
         | some t => decide (t < now - days * 86400)
         | none => false)) }

/-- A row of the SELECT in `DatabaseWriter.get_worker_jobs` (the shape of
`JobResponse` in api/models.py). -/
structure JobListing where
  job_uuid : String
  channel_id : Int
  channel_username : String
  job_type : String
  priority : Int
  created_at : Nat
deriving DecidableEq, Repr

/-- ORDER BY priority DESC, created_at ASC as a binary relation. -/
def jobOrder (a b : JobListing) : Prop :=
  b.priority < a.priority ∨ (a.priority = b.priority ∧ a.created_at ≤ b.created_at)

instance : DecidableRel jobOrder := fun a b => by
  unfold jobOrder; exact inferInstance

instance : IsTotal JobListing jobOrder :=
  ⟨by intro a b; unfold jobOrder; omega⟩

instance : IsTrans JobListing jobOrder :=
  ⟨by intro a b c hab hbc; unfold jobOrder at hab hbc ⊢; omega⟩

/-- `DatabaseWriter.get_worker_jobs`: the pending-job SELECT with its inner
JOIN on channels, the active-channel filter, ORDER BY priority DESC with
created_at ASC, and LIMIT. The sort is a stable deterministic sort
realizing the ORDER BY. -/
def get_worker_jobs (db : DBState) (limit : Nat) : List JobListing :=
  let rows := db.jobs.filterMap fun j =>
    if j.status == "pending" then
      match db.channels.find? (fun c => c.id == j.channel_id) with
      | some c =>
          if c.status == "active" then
            some { job_uuid := j.job_uuid, channel_id := j.channel_id,
                   channel_username := c.username, job_type := j.job_type,
                   priority := j.priority, created_at := j.created_at }
          else none
      | none => none
    else none
  (List.insertionSort jobOrder rows).take limit

/-! ### Ingestion queue: queue/message_queue.py -/

/-- `MessageQueue` state: the in-memory asyncio.Queue (head of the list is
the oldest element, i.e. the next one a get returns) and the Redis backup
list under the key message_queue_backup (head of the list is the leftmost
Redis element, i.e. the most recently LPUSHed one). -/
structure MessageQueue (α : Type) where
  max_size : Nat
  queue : List α
  redis_backup : List α
deriving DecidableEq, Repr

/-- asyncio.Queue full test: maxsize 0 means unbounded. -/
def queueIsFull {α : Type} (mq : MessageQueue α) : Bool :=
  0 < mq.max_size && mq.max_size ≤ mq.queue.length

/-- Semantics of `await queue.put(item)`: appends when the queue is below
capacity and otherwise suspends the caller until a consumer frees a slot
(`none` models the suspended call; asyncio.QueueFull is raised only by
put_nowait, never by put, so a put on a full queue does not raise). -/
def queuePut {α : Type} (mq : MessageQueue α) (x : α) : Option (MessageQueue α) :=
  if queueIsFull mq then none else some { mq with queue := mq.queue ++ [x] }

/-- Outcome of `MessageQueue.add_batch`: either the batch was appended and
the batch id returned, or the producer is left suspended inside
`queue.put` with the queue unchanged. -/
inductive AddBatchResult (α : Type) where
  | added (mq : MessageQueue α) (batch_data : α)
  | blocked (mq : MessageQueue α)
deriving DecidableEq, Repr

/-- `MessageQueue.add_batch`: put the assembled batch_data on the in-memory
queue, then LPUSH a copy onto the Redis backup list and LTRIM it to its
first 10000 elements. -/
def add_batch {α : Type} (mq : MessageQueue α) (batch_data : α) : AddBatchResult α :=
  match queuePut mq batch_data with
  | some mq1 =>
      .added { mq1 with redis_backup := (batch_data :: mq1.redis_backup).take 10000 }
        batch_data
  | none => .blocked mq

/-- `MessageQueue.get_batch`: pop the oldest element, or time out on an
empty queue. -/
def get_batch {α : Type} (mq : MessageQueue α) : Option α × MessageQueue α :=
  match mq.queue with
  | [] => (none, mq)
  | x :: rest => (some x, { mq with queue := rest })

/-- `MessageQueue._backup_to_redis`: drain the in-memory queue oldest-first;
when at least one item was drained, DELETE the backup key and LPUSH the
items in drain order (so the Redis list ends up holding the reversed drain
order); when the queue was empty the backup key is left untouched. -/
def backup_to_redis {α : Type} (mq : MessageQueue α) : MessageQueue α :=
  let items := mq.queue
  if items.isEmpty then { mq with queue := [] }
  else { mq with queue := [], redis_backup := items.reverse }

/-- Loop body of `MessageQueue._restore_from_redis`: RPOP one item per
iteration and put it on the in-memory queue; a put against a full queue
ends the restore with the popped item discarded (the warning branch). -/
def restoreLoop {α : Type} : MessageQueue α → Nat → MessageQueue α
  | mq, 0 => mq
  | mq, n + 1 =>
    match mq.redis_backup.getLast? with
    | none => mq
    | some item =>
      let mq1 : MessageQueue α := { mq with redis_backup := mq.redis_backup.dropLast }
      match queuePut mq1 item with
      | some mq2 => restoreLoop mq2 n
      | none => mq1

/-- `MessageQueue._restore_from_redis`: when the backup list is nonempty,
RPOP min(count, max_size) items back onto the in-memory queue. -/
def restore_from_redis {α : Type} (mq : MessageQueue α) : MessageQueue α :=
  let count := mq.redis_backup.length
  if count = 0 then mq
  else restoreLoop mq (min count mq.max_size)

/-! ### Aggregator: queue/batch_processor.py -/

/-- Storage failure conditions of the spec error taxonomy. -/
inductive StorageErr where
  | storageUnavailable
  | storageRejected
deriving DecidableEq, Repr

/-- The per-channel accumulator `current_batch` (defaultdict from
channel_id to the accumulated message list). -/
structure BatchProcessor where
  current_batch : List (Int × List Msg)
deriving DecidableEq, Repr

/-- Lookup of `current_batch[channel_id]` without defaultdict insertion
(the source only indexes after an explicit membership test). -/
def lookupBatch (b : List (Int × List Msg)) (cid : Int) : Option (List Msg) :=
  (b.find? fun e => e.1 == cid).map fun e => e.2

/-- Assignment `current_batch[channel_id] = v` for an existing key. -/
def setBatch (b : List (Int × List Msg)) (cid : Int) (v : List Msg) :
    List (Int × List Msg) :=
  b.map fun e => if e.1 == cid then (e.1, v) else e

/-- `BatchProcessor._flush_channel`, parametrized by the outcome of the
database write (`db_writer.insert_messages`). The source wraps the write
in a bare try/except: on any exception it logs and returns with the
accumulator untouched (comment in source: keep messages in batch for
retry); only a successful write clears the channel's batch. -/
def flush_channel (write : Int → List Msg → Except StorageErr Nat)
    (bp : BatchProcessor) (channel_id : Int) : BatchProcessor :=
  match lookupBatch bp.current_batch channel_id with
  | none => bp
  | some msgs =>
    if msgs.isEmpty then bp
    else
      match write channel_id msgs with
      | .ok _ => { bp with current_batch := setBatch bp.current_batch channel_id [] }
      | .error _ => bp

/-! ### Transport boundary: api/routes.py `submit_messages` -/

/-- The dict `MessageBatch` fields used by the endpoint. -/
structure MessageBatch where
  channel_id : Int
  job_id : Option String
  messages : List Msg
deriving DecidableEq, Repr

/-- The batch_data dict assembled by `MessageQueue.add_batch`. -/
structure Envelope where
  batch_id : String
  worker_id : String
  channel_id : Int
  job_id : Option String
  messages : List Msg
  received_at : Nat
  retry_count : Nat
deriving DecidableEq, Repr

/-- Outcome of the POST /messages handler. -/
inductive SubmitOutcome where
  | success (batch_id : String) (messages_count : Nat)
  | httpError (status_code : Nat) (detail : String)
  | blocked
deriving DecidableEq, Repr

/-- `submit_messages` in api/routes.py. The whole handler body sits inside
try/except Exception; an HTTPException(400, d) raised by the validation
branches is itself an Exception, so it is caught and re-raised as
HTTPException(500, str(e)) where str of an HTTPException is
"status_code: detail". The uuid batch id and the wall clock are passed in
explicitly. -/
def submit_messages (mq : MessageQueue Envelope) (worker_id : String)
    (batch : MessageBatch) (batch_id : String) (now : Nat) :
    SubmitOutcome × MessageQueue Envelope :=
  if batch.messages.isEmpty then
    (.httpError 500 "400: Empty message batch", mq)
  else if 1000 < batch.messages.length then
    (.httpError 500 "400: Batch too large (max 1000 messages)", mq)
  else
    match add_batch mq
        { batch_id := batch_id, worker_id := worker_id,
          channel_id := batch.channel_id, job_id := batch.job_id,
          messages := batch.messages, received_at := now, retry_count := 0 } with
    | .added mq1 _ => (.success batch_id batch.messages.length, mq1)
    | .blocked mq1 => (.blocked, mq1)

/-! ### Concrete fixtures used by counterexamples and witnesses -/

/-- A job in state running, assigned to worker-A. -/
def jobClaimRace : JobRecord :=
  { job_uuid := "job-1", channel_id := 1, job_type := "initial", priority := 5,
    created_at := 100, status := "running", worker_id := some "worker-A",
    started_at := some 100, completed_at := none, messages_collected := none,
    progress_percent := 0, error_message := none, retry_count := 0 }

/-- Worker record with zeroed counters. -/
def mkWorker (wid : String) : WorkerRecord :=
  { worker_id := wid, status := "active", jobs_completed := 0, jobs_failed := 0,
    messages_processed := 0 }

/-- Ledger with one running job assigned to worker-A. -/
def dbClaimRace : DBState :=
  { jobs := [jobClaimRace],
    workers := [mkWorker "worker-A", mkWorker "worker-B"],
    channels := [{ id := 1, username := "main", status := "active" }] }

/-- A job already in the terminal state completed. -/
def jobDone : JobRecord :=
  { job_uuid := "job-2", channel_id := 1, job_type := "initial", priority := 5,
    created_at := 100, status := "completed", worker_id := some "worker-A",
    started_at := some 110, completed_at := some 150, messages_collected := some 10,
    progress_percent := 100, error_message := none, retry_count := 0 }

/-- Ledger with one completed job. -/
def dbTerminal : DBState :=
  { jobs := [jobDone],
    workers := [mkWorker "worker-A"],
    channels := [{ id := 1, username := "main", status := "active" }] }

/-- A running job assigned to worker-A, completed below by caller worker-B. -/
def jobAssignedA : JobRecord :=
  { job_uuid := "job-3", channel_id := 1, job_type := "initial", priority := 5,
    created_at := 100, status := "running", worker_id := some "worker-A",
    started_at := some 120, completed_at := none, messages_collected := none,
    progress_percent := 0, error_message := none, retry_count := 0 }

/-- Ledger for the complete-job attribution counterexample. -/
def dbTwoWorkers : DBState :=
  { jobs := [jobAssignedA],
    workers := [mkWorker "worker-A", mkWorker "worker-B"],
    channels := [{ id := 1, username := "main", status := "active" }] }

/-- Pending-job constructor for the ordering fixture. -/
def mkPendingJob (u : String) (p : Int) (t : Nat) : JobRecord :=
  { job_uuid := u, channel_id := 1, job_type := "initial", priority := p,
    created_at := t, status := "pending", worker_id := none,
    started_at := none, completed_at := none, messages_collected := none,
    progress_percent := 0, error_message := none, retry_count := 0 }

/-- Ledger with pending jobs of priorities 1, 5, 3 created in that order. -/
def dbOrdering : DBState :=
  { jobs := [mkPendingJob "j1" 1 10, mkPendingJob "j2" 5 11, mkPendingJob "j3" 3 12],
    workers := [],
    channels := [{ id := 1, username := "main", status := "active" }] }

/-- A minimal message payload. -/
def msg0 : Msg :=
  { message_id := 7, text := some "hello", date := 50, views := 3, forwards := 1,
    replies := 0, reactions := some [("like", 2)], edit_date := none,
    media_type := none, media_url := none, media_metadata := none,
    author_id := some 42, author_name := some "alice", is_forwarded := false,
    forward_from := none, reply_to_msg_id := none, raw_data := none }

/-- Re-delivery of msg0 with changed mutable counters and identical
immutable fields. -/
def msg0Redelivered : Msg :=
  { msg0 with
    views := 9
    forwards := 4
    replies := 2
    reactions := some [("like", 5)]
    edit_date := some 60 }

/-- Write stub that always fails with the transient condition. -/
def unavailableWrite : Int → List Msg → Except StorageErr Nat :=
  fun _ _ => .error .storageUnavailable

/-- Write stub that always fails with the non-retryable condition. -/
def rejectingWrite : Int → List Msg → Except StorageErr Nat :=
  fun _ _ => .error .storageRejected

/-- Accumulator holding one pending message for channel 1. -/
def bpPending : BatchProcessor := { current_batch := [(1, [msg0])] }

/-- Empty in-memory queue of capacity 4 with empty backup store. -/
def mqFresh : MessageQueue Nat := { max_size := 4, queue := [], redis_backup := [] }

/-- Queue state after add_batch accepted envelope 7 on mqFresh. -/
def mqAfterAdd : MessageQueue Nat :=
  match add_batch mqFresh 7 with
  | .added mq1 _ => mq1
  | .blocked mq1 => mq1

/-- Queue state after the consumer drained envelope 7. -/
def mqAfterConsume : MessageQueue Nat := (get_batch mqAfterAdd).2

/-- Queue state after the shutdown backup with an empty resident set. -/
def mqAtShutdown : MessageQueue Nat := backup_to_redis mqAfterConsume

/-- Queue state after the startup restore on the next run. -/
def mqAfterRestart : MessageQueue Nat := restore_from_redis mqAtShutdown

/-- Nonempty queue used to witness the backup/restore round trip. -/
def mqResident : MessageQueue Nat := { max_size := 3, queue := [1, 2], redis_backup := [9] }

/-- Idle envelope queue at the transport boundary. -/
def mqIdle : MessageQueue Envelope := { max_size := 10000, queue := [], redis_backup := [] }

/-- A submit-batch call with an empty item list. -/
def emptyBatch : MessageBatch := { channel_id := 1, job_id := none, messages := [] }

/-- A submit-batch call with 1001 items. -/
def oversizedBatch : MessageBatch :=
  { channel_id := 1, job_id := none, messages := List.replicate 1001 msg0 }

/-- A submit-batch call with a single item. -/
def singletonBatch : MessageBatch := { channel_id := 1, job_id := none, messages := [msg0] }

/-! ## Theorems settling the claims -/

/-- C1 counterexample: with job-1 running and assigned to worker-A, a
start-job call by worker-B does not fail and does not leave the job
unchanged; it overwrites the assignment, so the claimed JobAlreadyClaimed
conditional update does not exist in the code. -/
theorem claim_by_other_worker_reassigns :
    (update_job_status dbClaimRace 200 "job-1" "running" (some "worker-B") none none).jobs.map
        (fun j => (j.status, j.worker_id))
      = [("running", some "worker-B")] := by
  decide

/-- C1 (amended): a start-job claim is an unconditional UPDATE: any job
matching the id gets status running, worker_id set to the caller and
started_at set to now, regardless of its current state or assignment
(so a re-claim by the same worker and a claim by a different worker both
succeed), and worker records are untouched. -/
theorem start_job_update_unconditional (db : DBState) (now : Nat) (job_id : String)
    (w : Option String) (j : JobRecord) (hj : j ∈ db.jobs) (huuid : j.job_uuid = job_id) :
    { j with status := "running", worker_id := w, started_at := some now }
        ∈ (update_job_status db now job_id "running" w none none).jobs
      ∧ (update_job_status db now job_id "running" w none none).workers = db.workers := by
  have hjobs : (update_job_status db now job_id "running" w none none).jobs
      = db.jobs.map fun jj =>
          if jj.job_uuid == job_id then
            { jj with status := "running", worker_id := w, started_at := some now }
          else jj := rfl
  refine ⟨?_, rfl⟩
  rw [hjobs]
  have hmem := List.mem_map_of_mem
    (fun jj => if jj.job_uuid == job_id then
        { jj with status := "running", worker_id := w, started_at := some now }
      else jj) hj
  simpa [huuid] using hmem

/-- Witness for C1: the amended start-job theorem applied to the concrete
running ledger, with its hypotheses discharged there. -/
theorem start_job_update_unconditional_witness :
    jobClaimRace ∈ dbClaimRace.jobs ∧ jobClaimRace.job_uuid = "job-1" ∧
      ({ jobClaimRace with
           status := "running"
           worker_id := some "worker-B"
           started_at := some 200 }
          ∈ (update_job_status dbClaimRace 200 "job-1" "running" (some "worker-B")
              none none).jobs
        ∧ (update_job_status dbClaimRace 200 "job-1" "running" (some "worker-B")
            none none).workers = dbClaimRace.workers) :=
  ⟨by decide, rfl,
    start_job_update_unconditional dbClaimRace 200 "job-1" (some "worker-B") jobClaimRace
      (by decide) rfl⟩

/-- C4 counterexample: job-2 is in the terminal state completed, yet a
start-job call moves it back to running, so core operations do transition
terminal jobs. -/
theorem terminal_job_transitions_back_to_running :
    (update_job_status dbTerminal 300 "job-2" "running" (some "worker-B") none none).jobs.map
        (fun j => j.status)
      = ["running"] := by
  decide

/-- C4 (amended): update_job_status applies the requested transition to any
job matching the id unconditionally, so terminal states are not absorbing
(a completed or failed job moves back to running on a start-job call);
the retention sweep removes exactly the jobs in a terminal state whose
completed_at lies before the retention cutoff. -/
theorem terminal_state_not_absorbing_and_retention_sweep (db : DBState) (now : Nat)
    (job_id : String) (w : Option String) (j : JobRecord) (hj : j ∈ db.jobs)
    (huuid : j.job_uuid = job_id)
    (hterm : j.status = "completed" ∨ j.status = "failed") :
    { j with status := "running", worker_id := w, started_at := some now }
        ∈ (update_job_status db now job_id "running" w none none).jobs
      ∧ ∀ days jj, jj ∈ (cleanup_old_jobs db now days).jobs ↔
          jj ∈ db.jobs ∧
            ¬((jj.status = "completed" ∨ jj.status = "failed") ∧
              ∃ t, jj.completed_at = some t ∧ t < now - days * 86400) := by
  constructor
  · have hjobs : (update_job_status db now job_id "running" w none none).jobs
        = db.jobs.map fun jj =>
            if jj.job_uuid == job_id then
              { jj with status := "running", worker_id := w, started_at := some now }
            else jj := rfl
    rw [hjobs]
    have hmem := List.mem_map_of_mem
      (fun jj => if jj.job_uuid == job_id then
          { jj with status := "running", worker_id := w, started_at := some now }
        else jj) hj
    simpa [huuid] using hmem
  · intro days jj
    simp only [cleanup_old_jobs, List.mem_filter]
    refine and_congr_right fun _ => ?_
    cases hc : jj.completed_at with
    | none => simp [hc]
    | some t => simp [hc]; tauto

/-- Witness for C4: the amended theorem applied to the completed-job
ledger, with its hypotheses discharged there. -/
theorem terminal_state_not_absorbing_witness :
    jobDone ∈ dbTerminal.jobs ∧ jobDone.job_uuid = "job-2" ∧
      (jobDone.status = "completed" ∨ jobDone.status = "failed") ∧
      ({ jobDone with
           status := "running"
           worker_id := some "worker-B"
           started_at := some 300 }
          ∈ (update_job_status dbTerminal 300 "job-2" "running" (some "worker-B")
              none none).jobs
        ∧ ∀ days jj, jj ∈ (cleanup_old_jobs dbTerminal 300 days).jobs ↔
            jj ∈ dbTerminal.jobs ∧
              ¬((jj.status = "completed" ∨ jj.status = "failed") ∧
                ∃ t, jj.completed_at = some t ∧ t < 300 - days * 86400)) :=
  ⟨by decide, rfl, Or.inl rfl,
    terminal_state_not_absorbing_and_retention_sweep dbTerminal 300 "job-2"
      (some "worker-B") jobDone (by decide) rfl (Or.inl rfl)⟩

/-- C8 counterexample: job-3 is running and assigned to worker-A; a
complete-job call that passes caller worker-B marks the job completed but
increments worker-B's counters and leaves the assigned worker-A's
counters untouched, so the state change and the assigned worker's counter
update do not go together. -/
theorem complete_job_credits_caller_not_assigned_worker :
    (update_job_status dbTwoWorkers 400 "job-3" "completed" (some "worker-B") (some 5)
          none).workers.map
        (fun wk => (wk.worker_id, wk.jobs_completed, wk.messages_processed))
      = [("worker-A", 0, 0), ("worker-B", 1, 5)]
    ∧ (update_job_status dbTwoWorkers 400 "job-3" "completed" (some "worker-B") (some 5)
          none).jobs.map (fun j => j.status)
      = ["completed"] := by
  decide

/-- C8 (amended): the completed branch unconditionally marks any job
matching the id completed with completed_at, messages_collected and
progress 100; separately, when the caller supplies a worker_id, that
worker's jobs_completed is incremented by 1 and messages_processed by
messages_collected (or 0) without consulting the job's stored assignment,
any other worker is untouched, and when no worker_id is supplied no
worker counter changes at all. -/
theorem complete_job_update_characterization (db : DBState) (now : Nat) (job_id : String)
    (mc : Option Int) (w : String) (j : JobRecord) (wk : WorkerRecord)
    (hj : j ∈ db.jobs) (huuid : j.job_uuid = job_id) (hwk : wk ∈ db.workers) :
    ({ j with
         status := "completed"
         completed_at := some now
         messages_collected := mc
         progress_percent := 100 }
        ∈ (update_job_status db now job_id "completed" (some w) mc none).jobs)
      ∧ (wk.worker_id = w →
          { wk with
              jobs_completed := wk.jobs_completed + 1
              messages_processed := wk.messages_processed + pyOrZero mc }
            ∈ (update_job_status db now job_id "completed" (some w) mc none).workers)
      ∧ (wk.worker_id ≠ w →
          wk ∈ (update_job_status db now job_id "completed" (some w) mc none).workers)
      ∧ (update_job_status db now job_id "completed" none mc none).workers = db.workers := by
  have hjobs : (update_job_status db now job_id "completed" (some w) mc none).jobs
      = db.jobs.map fun jj =>
          if jj.job_uuid == job_id then
            { jj with
                status := "completed"
                completed_at := some now
                messages_collected := mc
                progress_percent := 100 }
          else jj := rfl
  have hworkers : (update_job_status db now job_id "completed" (some w) mc none).workers
      = db.workers.map fun wk2 =>
          if wk2.worker_id == w then
            { wk2 with
                jobs_completed := wk2.jobs_completed + 1
                messages_processed := wk2.messages_processed + pyOrZero mc }
          else wk2 := rfl
  refine ⟨?_, ?_, ?_, rfl⟩
  · rw [hjobs]
    have hmem := List.mem_map_of_mem
      (fun jj => if jj.job_uuid == job_id then
          { jj with
              status := "completed"
              completed_at := some now
              messages_collected := mc
              progress_percent := 100 }
        else jj) hj
    simpa [huuid] using hmem
  · intro hid
    rw [hworkers]
    have hmem := List.mem_map_of_mem
      (fun wk2 => if wk2.worker_id == w then
          { wk2 with
              jobs_completed := wk2.jobs_completed + 1
              messages_processed := wk2.messages_processed + pyOrZero mc }
        else wk2) hwk
    simpa [hid] using hmem
  · intro hid
    rw [hworkers]
    have hmem := List.mem_map_of_mem
      (fun wk2 => if wk2.worker_id == w then
          { wk2 with
              jobs_completed := wk2.jobs_completed + 1
              messages_processed := wk2.messages_processed + pyOrZero mc }
        else wk2) hwk
    simpa [hid] using hmem

/-- Witness for C8: the amended complete-job theorem applied to the
two-worker ledger, with its hypotheses discharged there. -/
theorem complete_job_update_characterization_witness :
    jobAssignedA ∈ dbTwoWorkers.jobs ∧ jobAssignedA.job_uuid = "job-3" ∧
      (mkWorker "worker-B") ∈ dbTwoWorkers.workers ∧
      (({ jobAssignedA with
            status := "completed"
            completed_at := some 400
            messages_collected := some 5
            progress_percent := 100 }
          ∈ (update_job_status dbTwoWorkers 400 "job-3" "completed" (some "worker-B")
              (some 5) none).jobs)
        ∧ ((mkWorker "worker-B").worker_id = "worker-B" →
            { mkWorker "worker-B" with
                jobs_completed := (mkWorker "worker-B").jobs_completed + 1
                messages_processed :=
                  (mkWorker "worker-B").messages_processed + pyOrZero (some 5) }
              ∈ (update_job_status dbTwoWorkers 400 "job-3" "completed" (some "worker-B")
                  (some 5) none).workers)
        ∧ ((mkWorker "worker-B").worker_id ≠ "worker-B" →
            mkWorker "worker-B"
              ∈ (update_job_status dbTwoWorkers 400 "job-3" "completed" (some "worker-B")
                  (some 5) none).workers)
        ∧ (update_job_status dbTwoWorkers 400 "job-3" "completed" none (some 5)
            none).workers = dbTwoWorkers.workers) :=
  ⟨by decide, rfl, by decide,
    complete_job_update_characterization dbTwoWorkers 400 "job-3" (some 5) "worker-B"
      jobAssignedA (mkWorker "worker-B") (by decide) rfl (by decide)⟩

/-- C2: re-delivering a message whose (channel_id, message_id) key is
already stored performs an in-place update: no row is added or removed,
the keyed row count stays one, and the resulting row keeps the stored
text, date and author while taking views, forwards, replies, reactions
and edit_date from the incoming message. -/
theorem insert_messages_conflict_preserves_immutable (table : List MessageRow)
    (cid : Int) (m2 : Msg) (r0 : MessageRow) (h0 : r0 ∈ table)
    (hcid : r0.channel_id = cid) (hmid : r0.message_id = m2.message_id)
    (huniq : table.countP (keyMatches cid m2.message_id) = 1) :
    insert_messages table cid [m2]
        = table.map (fun row =>
            if keyMatches cid m2.message_id row then
              applyConflictUpdate (toRecord cid m2) row
            else row)
      ∧ (insert_messages table cid [m2]).countP (keyMatches cid m2.message_id) = 1
      ∧ applyConflictUpdate (toRecord cid m2) r0 ∈ insert_messages table cid [m2]
      ∧ (applyConflictUpdate (toRecord cid m2) r0).text = r0.text
      ∧ (applyConflictUpdate (toRecord cid m2) r0).date = r0.date
      ∧ (applyConflictUpdate (toRecord cid m2) r0).author_id = r0.author_id
      ∧ (applyConflictUpdate (toRecord cid m2) r0).author_name = r0.author_name
      ∧ (applyConflictUpdate (toRecord cid m2) r0).views = m2.views
      ∧ (applyConflictUpdate (toRecord cid m2) r0).forwards = m2.forwards
      ∧ (applyConflictUpdate (toRecord cid m2) r0).replies = m2.replies
      ∧ (applyConflictUpdate (toRecord cid m2) r0).reactions = m2.reactions
      ∧ (applyConflictUpdate (toRecord cid m2) r0).edit_date = m2.edit_date := by
  have hkey : keyMatches cid m2.message_id r0 = true := by
    simp [keyMatches, hcid, hmid]
  have hany : table.any (keyMatches cid m2.message_id) = true :=
    List.any_eq_true.mpr ⟨r0, h0, hkey⟩
  have hmain : insert_messages table cid [m2]
      = table.map (fun row =>
          if keyMatches cid m2.message_id row then
            applyConflictUpdate (toRecord cid m2) row
          else row) := by
    show upsertMessage table (toRecord cid m2)
        = table.map (fun row =>
            if keyMatches cid m2.message_id row then
              applyConflictUpdate (toRecord cid m2) row
            else row)
    unfold upsertMessage
    rw [if_pos]
    · rfl
    · exact hany
  refine ⟨hmain, ?_, ?_, rfl, rfl, rfl, rfl, rfl, rfl, rfl, rfl, rfl⟩
  · rw [hmain, List.countP_map, ← huniq]
    apply List.countP_congr
    intro x _
    simp only [Function.comp_apply]
    by_cases hkx : keyMatches cid m2.message_id x = true
    · rw [if_pos hkx]; exact Iff.rfl
    · rw [if_neg hkx]
  · rw [hmain]
    have hmem := List.mem_map_of_mem
      (fun row => if keyMatches cid m2.message_id row then
          applyConflictUpdate (toRecord cid m2) row
        else row) h0
    simpa [hkey] using hmem

/-- Witness for C2: the upsert theorem applied to a one-row table storing
msg0, re-delivered as msg0Redelivered with changed counters. -/
theorem insert_messages_conflict_witness :
    toRecord 1 msg0 ∈ [toRecord 1 msg0]
      ∧ (toRecord 1 msg0).channel_id = 1
      ∧ (toRecord 1 msg0).message_id = msg0Redelivered.message_id
      ∧ [toRecord 1 msg0].countP (keyMatches 1 msg0Redelivered.message_id) = 1
      ∧ ((insert_messages [toRecord 1 msg0] 1 [msg0Redelivered]).countP
            (keyMatches 1 msg0Redelivered.message_id) = 1
        ∧ applyConflictUpdate (toRecord 1 msg0Redelivered) (toRecord 1 msg0)
            ∈ insert_messages [toRecord 1 msg0] 1 [msg0Redelivered]) :=
  ⟨by decide, by decide, by decide, by decide,
    (insert_messages_conflict_preserves_immutable [toRecord 1 msg0] 1 msg0Redelivered
        (toRecord 1 msg0) (by decide) (by decide) (by decide) (by decide)).2.1,
    (insert_messages_conflict_preserves_immutable [toRecord 1 msg0] 1 msg0Redelivered
        (toRecord 1 msg0) (by decide) (by decide) (by decide) (by decide)).2.2.1⟩

/-- C9: job selection returns at most limit rows, sorted by priority
descending with created_at ascending as the tiebreak, and every returned
row comes from a pending job joined to an active channel. -/
theorem get_worker_jobs_ordering (db : DBState) (limit : Nat) :
    (get_worker_jobs db limit).length ≤ limit
      ∧ List.Pairwise jobOrder (get_worker_jobs db limit)
      ∧ ∀ r ∈ get_worker_jobs db limit, ∃ j ∈ db.jobs, ∃ c ∈ db.channels,
          j.status = "pending" ∧ c.status = "active" ∧ c.id = j.channel_id ∧
          r = { job_uuid := j.job_uuid, channel_id := j.channel_id,
                channel_username := c.username, job_type := j.job_type,
                priority := j.priority, created_at := j.created_at } := by
  refine ⟨List.length_take_le _ _, ?_, ?_⟩
  · exact (List.sorted_insertionSort jobOrder _).sublist (List.take_sublist _ _)
  · intro r hr
    have hr1 : r ∈ List.insertionSort jobOrder _ := List.mem_of_mem_take hr
    have hr2 := (List.perm_insertionSort jobOrder _).mem_iff.mp hr1
    obtain ⟨j, hj, hfj⟩ := List.mem_filterMap.mp hr2
    refine ⟨j, hj, ?_⟩
    split at hfj
    · split at hfj
      next c hfind =>
        split at hfj
        next hact =>
          refine ⟨c, List.mem_of_find?_eq_some hfind, ?_, ?_, ?_, ?_⟩
          · next hp _ => exact beq_iff_eq.mp hp
          · exact beq_iff_eq.mp hact
          · have hpc := List.find?_some hfind
            simpa using hpc
          · exact (Option.some.inj hfj).symm
        next => exact absurd hfj (by simp)
      next => exact absurd hfj (by simp)
    · exact absurd hfj (by simp)

/-- Witness for C9: the ordering theorem at the priorities-[1,5,3] ledger,
together with the concrete returned order [5, 3, 1]. -/
theorem get_worker_jobs_ordering_witness :
    ((get_worker_jobs dbOrdering 10).length ≤ 10
      ∧ List.Pairwise jobOrder (get_worker_jobs dbOrdering 10)
      ∧ ∀ r ∈ get_worker_jobs dbOrdering 10, ∃ j ∈ dbOrdering.jobs,
          ∃ c ∈ dbOrdering.channels,
          j.status = "pending" ∧ c.status = "active" ∧ c.id = j.channel_id ∧
          r = { job_uuid := j.job_uuid, channel_id := j.channel_id,
                channel_username := c.username, job_type := j.job_type,
                priority := j.priority, created_at := j.created_at })
      ∧ (get_worker_jobs dbOrdering 10).map
          (fun r => (r.job_uuid, r.priority)) = [("j2", 5), ("j3", 3), ("j1", 1)] :=
  ⟨get_worker_jobs_ordering dbOrdering 10, by decide⟩

/-- C3: evaluating add_batch on a queue already at its fixed capacity: the
call does not return a QueueFull rejection — queue.put never raises
asyncio.QueueFull (that exception comes only from put_nowait, so the
except branch of add_batch is unreachable) and instead suspends the
producer, modelled by the blocked outcome, with the queue contents
unchanged. -/
theorem add_batch_on_full_queue_blocks_producer :
    add_batch { max_size := 2, queue := [10, 11], redis_backup := [] } 12
      = .blocked { max_size := 2, queue := [10, 11], redis_backup := [] } := by
  decide

/-- Helper for the restore loop: running it for exactly the length of the
backup list, with enough capacity, moves the whole list tail-first onto
the queue and empties the store. -/
theorem restoreLoop_drains_backup {α : Type} (max : Nat) :
    ∀ (l q : List α), q.length + l.length ≤ max →
      restoreLoop { max_size := max, queue := q, redis_backup := l } l.length
        = { max_size := max, queue := q ++ l.reverse, redis_backup := [] } := by
  intro l
  induction l using List.reverseRecOn with
  | nil => intro q _; simp [restoreLoop]
  | append_singleton l' a ih =>
      intro q h
      have hq : ¬ (max ≤ q.length) := by
        simp only [List.length_append, List.length_cons, List.length_nil] at h
        omega
      have hlen : (l' ++ [a]).length = l'.length + 1 := by simp
      rw [hlen, restoreLoop]
      simp only [List.getLast?_concat, List.dropLast_concat, queuePut, queueIsFull,
        hq, decide_False, Bool.and_false, Bool.false_eq_true, if_false]
      rw [ih (q ++ [a]) (by simp at h ⊢; omega)]
      simp [List.reverse_append]

/-- C5 counterexample: envelope 7 is enqueued (add_batch also copies it
into the backup store), consumed by the Aggregator, and the process shuts
down with an empty queue. The shutdown backup is guarded by an emptiness
test and leaves the store holding the stale copy instead of replacing the
store with the (empty) resident set, so the next startup restores the
already-consumed envelope: the store is not always fully replaced and a
restart re-delivers a duplicate. -/
theorem shutdown_with_empty_queue_keeps_stale_backup :
    (get_batch mqAfterAdd).1 = some 7
      ∧ mqAfterConsume.queue = []
      ∧ mqAtShutdown.redis_backup = [7]
      ∧ mqAfterRestart.queue = [7] := by
  decide

/-- C5 (amended): when at least one envelope is resident at shutdown, the
backup fully replaces the store with the resident envelopes and the
following startup restore recovers exactly those envelopes in their
original oldest-first order, leaving the store empty; with an empty
resident set the store is left untouched, so stale copies written by
add_batch during the previous run can be re-delivered. -/
theorem backup_restore_roundtrip {α : Type} (mq : MessageQueue α)
    (hne : mq.queue ≠ []) (hcap : mq.queue.length ≤ mq.max_size) :
    (restore_from_redis (backup_to_redis mq)).queue = mq.queue
      ∧ (restore_from_redis (backup_to_redis mq)).redis_backup = [] := by
  have hempty : mq.queue.isEmpty = false := by
    cases hqq : mq.queue with
    | nil => exact absurd hqq hne
    | cons x xs => rfl
  have hb : backup_to_redis mq
      = { max_size := mq.max_size, queue := [], redis_backup := mq.queue.reverse } := by
    unfold backup_to_redis
    simp only [hempty, Bool.false_eq_true, if_false]
  have hne0 : ¬ (mq.queue.reverse.length = 0) := by
    simp only [List.length_reverse]
    intro h0
    exact hne (List.length_eq_zero.mp h0)
  have hmin : min mq.queue.reverse.length mq.max_size = mq.queue.reverse.length :=
    Nat.min_eq_left (by simpa using hcap)
  rw [hb]
  simp only [restore_from_redis]
  rw [if_neg hne0, hmin,
    restoreLoop_drains_backup mq.max_size mq.queue.reverse [] (by simpa using hcap)]
  constructor
  · simp
  · rfl

/-- Witness for C5: the amended round-trip theorem applied to a resident
queue of two envelopes with a stale backup entry, with its hypotheses
discharged there. -/
theorem backup_restore_roundtrip_witness :
    mqResident.queue ≠ []
      ∧ mqResident.queue.length ≤ mqResident.max_size
      ∧ ((restore_from_redis (backup_to_redis mqResident)).queue = mqResident.queue
        ∧ (restore_from_redis (backup_to_redis mqResident)).redis_backup = []) :=
  ⟨by decide, by decide, backup_restore_roundtrip mqResident (by decide) (by decide)⟩

/-- C6: a flush whose database write fails with the transient
StorageUnavailable condition leaves the whole processor state, in
particular the channel's accumulated message list, unchanged, so the next
size- or time-triggered flush re-attempts exactly the same items. -/
theorem flush_keeps_pending_on_unavailable
    (write : Int → List Msg → Except StorageErr Nat) (bp : BatchProcessor)
    (channel_id : Int) (msgs : List Msg)
    (hl : lookupBatch bp.current_batch channel_id = some msgs)
    (hw : write channel_id msgs = .error .storageUnavailable) :
    flush_channel write bp channel_id = bp := by
  by_cases he : msgs.isEmpty = true
  · simp [flush_channel, hl, he]
  · simp [flush_channel, hl, he, hw]

/-- Witness for C6: the transient-failure theorem applied to the pending
accumulator with the always-unavailable write stub. -/
theorem flush_keeps_pending_on_unavailable_witness :
    lookupBatch bpPending.current_batch 1 = some [msg0]
      ∧ unavailableWrite 1 [msg0] = .error .storageUnavailable
      ∧ flush_channel unavailableWrite bpPending 1 = bpPending :=
  ⟨rfl, rfl, flush_keeps_pending_on_unavailable unavailableWrite bpPending 1 [msg0] rfl rfl⟩

/-- C7 counterexample: a flush that fails with the non-retryable
StorageRejected condition does not drop the offending items — channel 1
still holds msg0 afterwards (a drop would leave the empty list), because
the bare except branch keeps every failed batch for retry. -/
theorem rejected_flush_keeps_offending_items :
    lookupBatch (flush_channel rejectingWrite bpPending 1).current_batch 1
      = some [msg0] := by
  rfl

/-- C7 (amended): a flush failing with StorageRejected behaves exactly like
a transient failure: the processor state is unchanged and the offending
items stay in the accumulator to be retried by every later flush, so a
poison-pill item does block its partition. -/
theorem flush_keeps_items_on_rejected
    (write : Int → List Msg → Except StorageErr Nat) (bp : BatchProcessor)
    (channel_id : Int) (msgs : List Msg)
    (hl : lookupBatch bp.current_batch channel_id = some msgs)
    (hw : write channel_id msgs = .error .storageRejected) :
    flush_channel write bp channel_id = bp := by
  by_cases he : msgs.isEmpty = true
  · simp [flush_channel, hl, he]
  · simp [flush_channel, hl, he, hw]

/-- Witness for C7: the amended theorem applied to the pending accumulator
with the always-rejecting write stub. -/
theorem flush_keeps_items_on_rejected_witness :
    lookupBatch bpPending.current_batch 1 = some [msg0]
      ∧ rejectingWrite 1 [msg0] = .error .storageRejected
      ∧ flush_channel rejectingWrite bpPending 1 = bpPending :=
  ⟨rfl, rfl, flush_keeps_items_on_rejected rejectingWrite bpPending 1 [msg0] rfl rfl⟩

/-- C10: evaluating the submit-batch endpoint at its validation boundary:
an empty batch and a 1001-item batch are rejected before the queue is
touched, but with HTTP status 500 rather than 400 — the handler's blanket
except Exception catches its own HTTPException(400) and re-raises it as
HTTPException(500, str(e)) — while a single-item batch is accepted and
answered with the envelope id and item count. -/
theorem submit_messages_validation_status_is_500 :
    submit_messages mqIdle "worker-A" emptyBatch "batch-1" 0
        = (.httpError 500 "400: Empty message batch", mqIdle)
      ∧ submit_messages mqIdle "worker-A" oversizedBatch "batch-2" 0
        = (.httpError 500 "400: Batch too large (max 1000 messages)", mqIdle)
      ∧ (submit_messages mqIdle "worker-A" singletonBatch "batch-3" 0).1
        = .success "batch-3" 1 := by
  refine ⟨rfl, ?_, rfl⟩
  have hrep : (List.replicate 1001 msg0).isEmpty = false := by
    rw [show (1001 : Nat) = 1000 + 1 from rfl, List.replicate_succ]
    rfl
  simp only [submit_messages, oversizedBatch, hrep, Bool.false_eq_true, if_false,
    List.length_replicate]
  norm_num

end TelegramParserSystem
